import Mathlib

/-!
Shallow embedding of the document-ingestion and transaction-confirmation
workflow of the expense-manager frontend.

Sources embedded:
* `TransactionConfirmationModal` (validateField, handleFieldEdit,
  handleConfirm, the reset effect on a new extraction) —
  src/frontend/app/components/BackendCharts.jsx, second document.
* `UploadComponent` (handleSubmit response classification, 401 handling,
  handleConfirmTransaction) and `DeleteButton` — src/unnamed/part_001.
* The api helpers (fetchExpenses, deleteTransactionAPI, confirmTransaction)
  — src/unnamed/part_000.
* The expenses-page loader (loadExpenses) — src/frontend/app/page.jsx.
-/

namespace ExpenseApp

/-- The editable fields of an `ExtractedTransaction`; `confidence` is kept
separately since `handleConfirm` skips it. -/
inductive Field where
  | amount
  | sender
  | receiver
  | date
  | time
  | transaction_id
  | category
  deriving DecidableEq, Repr

/-- All keys of the working copy other than `confidence`, in the order the
modal renders them; `Object.keys(editedData)` minus `confidence` ranges over
exactly these when the working copy is an ExtractedTransaction. -/
def allFields : List Field :=
  [Field.amount, Field.sender, Field.receiver, Field.date, Field.time,
   Field.transaction_id, Field.category]

theorem mem_allFields (f : Field) : f ∈ allFields := by
  cases f <;> simp [allFields]

/-- The working copy `editedData` held by the confirmation modal: the string
value of each editable field plus the per-field confidence mapping carried
along from the extraction response. -/
structure WorkingCopy where
  amount : String
  sender : String
  receiver : String
  date : String
  time : String
  transaction_id : String
  category : String
  confidence : List (Field × ℚ)
  deriving DecidableEq, Repr

def WorkingCopy.get (d : WorkingCopy) : Field → String
  | Field.amount => d.amount
  | Field.sender => d.sender
  | Field.receiver => d.receiver
  | Field.date => d.date
  | Field.time => d.time
  | Field.transaction_id => d.transaction_id
  | Field.category => d.category

/-- Spread-update `{ ...editedData, [field]: value }` for an editable field. -/
def WorkingCopy.set (d : WorkingCopy) (f : Field) (v : String) : WorkingCopy :=
  match f with
  | Field.amount => { d with amount := v }
  | Field.sender => { d with sender := v }
  | Field.receiver => { d with receiver := v }
  | Field.date => { d with date := v }
  | Field.time => { d with time := v }
  | Field.transaction_id => { d with transaction_id := v }
  | Field.category => { d with category := v }

theorem WorkingCopy.set_set (d : WorkingCopy) (f : Field) (v : String) :
    (d.set f v).set f v = d.set f v := by
  cases f <;> rfl

theorem WorkingCopy.get_set (d : WorkingCopy) (f : Field) (v : String) :
    (d.set f v).get f = v := by
  cases f <;> rfl

/-! ### A model of the JavaScript primitives used by the validator -/

/-- JS whitespace relevant to `trim` and `parseFloat` for ordinary input. -/
def isJsSpace (c : Char) : Bool :=
  c == ' ' || c == '\t' || c == '\n' || c == '\r'

/-- Model of `String.prototype.trim`: strip whitespace from both ends. -/
def jsTrim (s : String) : List Char :=
  ((s.data.dropWhile isJsSpace).reverse.dropWhile isJsSpace).reverse

/-- Split a character list into its maximal leading run of decimal digits
and the remainder. -/
def takeDigits : List Char → List Char × List Char
  | [] => ([], [])
  | c :: cs =>
    if c.isDigit then
      let p := takeDigits cs
      (c :: p.1, p.2)
    else ([], c :: cs)

/-- Value of a digit run read in base 10. -/
def digitsToNat (ds : List Char) : ℕ :=
  ds.foldl (fun a c => a * 10 + (c.toNat - 48)) 0

/-- Model of JS `parseFloat`: skip leading whitespace, read an optional
sign, a digit run, an optional fraction and an optional exponent, ignoring
any trailing garbage; `none` stands for `NaN` (no digits at all).  Finite
decimal literals are represented exactly as rationals. -/
def jsParseFloat (s : String) : Option ℚ :=
  let cs0 := s.data.dropWhile isJsSpace
  let signAndRest : ℤ × List Char :=
    match cs0 with
    | '-' :: rest => (-1, rest)
    | '+' :: rest => (1, rest)
    | _ => (1, cs0)
  let intPart := takeDigits signAndRest.2
  let fracPart : List Char × List Char :=
    match intPart.2 with
    | '.' :: rest => takeDigits rest
    | other => ([], other)
  if intPart.1.length + fracPart.1.length = 0 then none
  else
    let mantNum : ℤ :=
      signAndRest.1 *
        ((digitsToNat intPart.1 * 10 ^ fracPart.1.length +
            digitsToNat fracPart.1 : ℕ) : ℤ)
    let mantDen : ℕ := 10 ^ fracPart.1.length
    let expo : ℤ :=
      match fracPart.2 with
      | e :: rest =>
        if e == 'e' || e == 'E' then
          let esignAndRest : ℤ × List Char :=
            match rest with
            | '-' :: r => (-1, r)
            | '+' :: r => (1, r)
            | _ => (1, rest)
          let eDigits := takeDigits esignAndRest.2
          if eDigits.1.isEmpty then 0
          else esignAndRest.1 * (digitsToNat eDigits.1 : ℤ)
        else 0
      | [] => 0
    some (if 0 ≤ expo then mkRat (mantNum * (10 : ℤ) ^ expo.toNat) mantDen
          else mkRat mantNum (mantDen * 10 ^ (-expo).toNat))

/-! ### The field validator -/

/-- Result of `validateField(field, value)`: at most one error message and
at most one warning message for the field. -/
structure FieldCheck where
  error : Option String
  warning : Option String
  deriving DecidableEq, Repr

/-- The modal's `validateField`, translated branch by
branch: `amount` is parsed with `parseFloat` (error when `NaN` or `≤ 0`,
warning when `> 100000`); `sender`/`receiver` need trimmed length ≥ 2;
`transaction_id` needs trimmed length ≥ 4; other fields always pass.  The
JS guard `!value ||` (falsy empty string) is kept explicitly. -/
def validateField (f : Field) (value : String) : FieldCheck :=
  match f with
  | Field.amount =>
    match jsParseFloat value with
    | none => ⟨some "Amount must be a positive number", none⟩
    | some n =>
      if n ≤ 0 then ⟨some "Amount must be a positive number", none⟩
      else if n > 100000 then
        ⟨none, some "Large amount detected - please verify"⟩
      else ⟨none, none⟩
  | Field.sender | Field.receiver =>
    if value = "" ∨ (jsTrim value).length < 2 then
      ⟨some "Name must be at least 2 characters", none⟩
    else ⟨none, none⟩
  | Field.transaction_id =>
    if value = "" ∨ (jsTrim value).length < 4 then
      ⟨some "Transaction ID must be at least 4 characters", none⟩
    else ⟨none, none⟩
  | Field.date | Field.time | Field.category => ⟨none, none⟩

example : jsParseFloat "99.50" = some (mkRat 199 2) := by decide
example : jsParseFloat "abc" = none := by decide
example : jsParseFloat "12abc" = some 12 := by decide
example : jsParseFloat "-5" = some (-5) := by decide
example : validateField Field.amount "250000" =
    ⟨none, some "Large amount detected - please verify"⟩ := by decide

/-! ### The confirmation modal's state -/

/-- The local state of `TransactionConfirmationModal`: the working copy
`editedData`, the `editingField` target, and the two validation maps.  A
field mapped to `none` models a key that is absent or holds `undefined`
(both falsy wherever the component reads the maps). -/
structure ModalState where
  editedData : WorkingCopy
  editingField : Option Field
  validationErrors : Field → Option String
  warnings : Field → Option String

/-- The `useEffect` on `extractedData`: on receipt of a new (truthy)
extraction, reset the working copy to it and clear both maps and the
active-edit target. -/
def resetModal (d : WorkingCopy) : ModalState :=
  { editedData := d
    editingField := none
    validationErrors := fun _ => none
    warnings := fun _ => none }

/-- The modal's `handleFieldEdit(field, value)`: update the working copy at the field
and merge the single-field validation result into both maps, leaving the
other fields' entries untouched. -/
def handleFieldEdit (st : ModalState) (f : Field) (v : String) : ModalState :=
  let fc := validateField f v
  { st with
    editedData := st.editedData.set f v
    validationErrors := fun g => if g = f then fc.error else st.validationErrors g
    warnings := fun g => if g = f then fc.warning else st.warnings g }

/-- Errors of the full revalidation `handleConfirm` performs over every
key of the working copy except `confidence`. -/
def confirmAllErrors (d : WorkingCopy) : Field → Option String :=
  fun f => (validateField f (d.get f)).error

/-- Warnings of the full revalidation at confirm time. -/
def confirmAllWarnings (d : WorkingCopy) : Field → Option String :=
  fun f => (validateField f (d.get f)).warning

/-- Emptiness check `Object.keys(allErrors).length === 0` after the full revalidation. -/
def noConfirmErrors (d : WorkingCopy) : Bool :=
  allFields.all fun f => (confirmAllErrors d f).isNone

/-- Result of one `handleConfirm()` call: the updated modal state and,
when the rebuilt error set was empty, the working copy handed to the
`onConfirm` persistence collaborator (`none` when it was not invoked). -/
structure ConfirmResult where
  newState : ModalState
  persisted : Option WorkingCopy

/-- The modal's `handleConfirm`: rebuild both maps from scratch over every field except
`confidence`, replace the ValidationState wholesale, and invoke
`onConfirm(editedData)` iff the rebuilt error set is empty. -/
def handleConfirm (st : ModalState) : ConfirmResult :=
  { newState :=
      { st with
        validationErrors := confirmAllErrors st.editedData
        warnings := confirmAllWarnings st.editedData }
    persisted :=
      if noConfirmErrors st.editedData then some st.editedData else none }

theorem noConfirmErrors_iff (d : WorkingCopy) :
    noConfirmErrors d = true ↔
      ∀ f : Field, (validateField f (d.get f)).error = none := by
  unfold noConfirmErrors
  rw [List.all_eq_true]
  constructor
  · intro h f
    have := h f (mem_allFields f)
    simpa [confirmAllErrors, Option.isNone_iff_eq_none] using this
  · intro h f _
    simp [confirmAllErrors, Option.isNone_iff_eq_none, h f]

/-! ### The upload orchestrator -/

/-- JS `s || fallback` on an optional string: `undefined` and the empty
string are falsy. -/
def jsStringOr (s : Option String) (fallback : String) : String :=
  match s with
  | some v => if v = "" then fallback else v
  | none => fallback

/-- Does the character list contain the check-mark character? -/
def hasCheckMark : List Char → Bool
  | [] => false
  | c :: cs => c == '✅' || hasCheckMark cs

/-- JS `data.status && data.status.includes("✅")`. -/
def statusHasCheckMark (s : Option String) : Bool :=
  match s with
  | some v => if v = "" then false else hasCheckMark v.data
  | none => false

/-- Shape of a decoded `/upload` response body: the optional flags the
orchestrator inspects.  Truthiness of `requires_password` and `success`
is modelled by `Bool`, presence of `extracted_data` by `Option`. -/
structure UploadResponse where
  requires_password : Bool
  success : Bool
  extracted_data : Option WorkingCopy
  status : Option String

/-- The `status` strings stored by `UploadComponent` (`"idle"`, `"uploading"`,
`"success"`, `"error"`). -/
inductive UploadStatus where
  | idle
  | uploading
  | success
  | failed
  deriving DecidableEq, Repr

/-- The `UploadComponent` state relevant to the claims. -/
structure UploadState where
  status : UploadStatus
  message : String
  requiresPassword : Bool
  password : String
  hasSelectedFile : Bool
  extractedData : Option WorkingCopy
  showConfirmation : Bool
  isSaving : Bool

/-- The last two branches of the disambiguation: generic success, else
error, with the JS `||` fallbacks on the message. -/
def applyUploadFallback (st : UploadState) (r : UploadResponse) : UploadState :=
  if r.success || statusHasCheckMark r.status then
    { st with
      status := UploadStatus.success
      message := jsStringOr r.status "✅ File processed successfully!"
      requiresPassword := false
      password := ""
      hasSelectedFile := false }
  else
    { st with
      status := UploadStatus.failed
      message := jsStringOr r.status "❌ Failed to process file" }

/-- The response-shape disambiguation of `handleSubmit` after a non-401
response was decoded, branch by branch in source order: the
password-required flag, then `success && extracted_data`, then
`success || status.includes("✅")`, otherwise the error branch. -/
def applyUploadResponse (st : UploadState) (r : UploadResponse) : UploadState :=
  if r.requires_password then
    { st with
      requiresPassword := true
      status := UploadStatus.idle
      message := "🔐 This PDF requires a password. Please enter it below." }
  else
    match r.extracted_data with
    | some d =>
      if r.success then
        { st with
          extractedData := some d
          showConfirmation := true
          status := UploadStatus.idle
          message := "" }
      else applyUploadFallback st r
    | none => applyUploadFallback st r

/-! ### The persistence call and `handleConfirmTransaction` -/

/-- An HTTP response as the api helpers inspect it. -/
structure HttpResponse where
  status : ℕ
  deriving DecidableEq, Repr

/-- Fetch's `res.ok`: status in the 2xx range. -/
def HttpResponse.ok (r : HttpResponse) : Bool :=
  200 ≤ r.status && r.status ≤ 299

/-- The api helper `confirmTransaction`: throw `"Unauthorized"` on
401, throw `error.detail || "Failed to save transaction"` on any other
non-ok response, return the saved record otherwise. -/
def confirmTransactionApi (r : HttpResponse) (detail : Option String) :
    Except String Unit :=
  if r.status = 401 then Except.error "Unauthorized"
  else if !r.ok then
    Except.error (jsStringOr detail "Failed to save transaction")
  else Except.ok ()

/-- The upload component's `handleConfirmTransaction`: with a live session, strip `confidence`
and await the persistence call; on success close the modal, drop the
extraction, and show the saved banner; on a thrown error keep the modal
and extraction untouched and surface
`"❌ Failed to save: " ++ (error.message || "Unknown error")`. -/
def handleConfirmTransaction (st : UploadState) (hasSession : Bool)
    (persist : Except String Unit) : UploadState :=
  if !hasSession then st
  else
    match persist with
    | Except.ok _ =>
      { st with
        showConfirmation := false
        extractedData := none
        isSaving := false
        status := UploadStatus.success
        message := "✅ Transaction saved successfully!" }
    | Except.error m =>
      { st with
        isSaving := false
        status := UploadStatus.failed
        message := "❌ Failed to save: " ++ jsStringOr (some m) "Unknown error" }

/-- The fields of the working copy actually posted by
`handleConfirmTransaction`: `confidence` is destructured away. -/
structure PostedTransaction where
  amount : String
  sender : String
  receiver : String
  date : String
  time : String
  transaction_id : String
  category : String
  deriving DecidableEq, Repr

/-- Destructuring `const \x7b confidence, ...dataToSave \x7d = confirmedData`. -/
def stripConfidence (d : WorkingCopy) : PostedTransaction :=
  { amount := d.amount
    sender := d.sender
    receiver := d.receiver
    date := d.date
    time := d.time
    transaction_id := d.transaction_id
    category := d.category }

/-- Combined view state for the confirm-save path: the upload component
plus its modal child.  The modal's `useEffect` resets its state only when
`extractedData` changes to a new truthy extraction. -/
structure AppState where
  upload : UploadState
  modal : ModalState

/-- One confirm-save round seen from the combined state: run
`handleConfirmTransaction` with a live session, then apply the modal's
`useEffect` on `extractedData` (reset only on a changed, truthy value). -/
def appConfirmSave (st : AppState) (persist : Except String Unit) : AppState :=
  let up2 := handleConfirmTransaction st.upload true persist
  { upload := up2
    modal :=
      if up2.extractedData ≠ st.upload.extractedData then
        match up2.extractedData with
        | some d => resetModal d
        | none => st.modal
      else st.modal }

/-! ### 401 handling across the four remote operations -/

/-- Observable credential-related effects of one handler run after its
remote call completed with a given HTTP status. -/
structure AuthReaction where
  clearedToken : Bool
  navigatedToLogin : Bool
  retriedRequest : Bool
  alerted : Option String
  deriving DecidableEq, Repr

/-- The four remote operations of the workflow. -/
inductive RemoteOp where
  | upload
  | confirmSave
  | deleteExpense
  | listFetch
  deriving DecidableEq, Repr

/-- The reaction of `handleSubmit` after the fetch resolved: an explicit
`response.status === 401` check removes `sb-token` and pushes `/login`;
every other status proceeds to the body without touching the credential.
No path re-issues the request. -/
def uploadAuthReaction (r : HttpResponse) : AuthReaction :=
  if r.status = 401 then
    { clearedToken := true, navigatedToLogin := true
      retriedRequest := false, alerted := none }
  else
    { clearedToken := false, navigatedToLogin := false
      retriedRequest := false, alerted := none }

/-- The reaction of `handleConfirmTransaction`: `confirmTransaction` throws
`"Unauthorized"` on 401; the catch block only sets the error banner.  The
credential is never cleared and no navigation happens. -/
def confirmSaveAuthReaction (_r : HttpResponse) : AuthReaction :=
  { clearedToken := false, navigatedToLogin := false
    retriedRequest := false, alerted := none }

/-- The reaction of `handleDelete` in `DeleteButton`: `deleteTransactionAPI` throws
`"Unauthorized"` on 401; the catch block only raises
`alert("Failed to delete")`. -/
def deleteAuthReaction (r : HttpResponse) : AuthReaction :=
  if r.status = 401 ∨ !r.ok then
    { clearedToken := false, navigatedToLogin := false
      retriedRequest := false, alerted := some "Failed to delete" }
  else
    { clearedToken := false, navigatedToLogin := false
      retriedRequest := false, alerted := none }

/-- The reaction of `loadExpenses` in the page: `fetchExpenses` rethrows only
`"Unauthorized"` (other failures degrade to an empty list); the caller's
catch removes `sb-token` and pushes `/login` exactly when the message is
`"Unauthorized"`. -/
def listFetchAuthReaction (r : HttpResponse) : AuthReaction :=
  if r.status = 401 then
    { clearedToken := true, navigatedToLogin := true
      retriedRequest := false, alerted := none }
  else
    { clearedToken := false, navigatedToLogin := false
      retriedRequest := false, alerted := none }

/-- The reaction of whichever handler performed the operation. -/
def opAuthReaction : RemoteOp → HttpResponse → AuthReaction
  | RemoteOp.upload, r => uploadAuthReaction r
  | RemoteOp.confirmSave, r => confirmSaveAuthReaction r
  | RemoteOp.deleteExpense, r => deleteAuthReaction r
  | RemoteOp.listFetch, r => listFetchAuthReaction r

/-! ### Concrete sample states used by the witnesses -/

/-- A working copy every field of which passes validation. -/
def sampleCopy : WorkingCopy :=
  { amount := "100"
    sender := "John Doe"
    receiver := "Acme Store"
    date := "2024-01-01"
    time := "10:00"
    transaction_id := "TXN12345"
    category := "Food"
    confidence := [(Field.amount, mkRat 9 10)] }

/-- The sample copy with a negative amount, freshly opened for review. -/
def badAmountState : ModalState :=
  resetModal { sampleCopy with amount := "-5" }

/-- The sample copy with a large amount and everything else valid. -/
def largeAmountState : ModalState :=
  resetModal { sampleCopy with amount := "150000" }

/-- A large amount together with a too-short sender name. -/
def largeAmountShortSender : ModalState :=
  resetModal { sampleCopy with amount := "150000", sender := "A" }

/-- An upload component state with a file selected and nothing pending. -/
def initialUploadState : UploadState :=
  { status := UploadStatus.idle
    message := ""
    requiresPassword := false
    password := ""
    hasSelectedFile := true
    extractedData := none
    showConfirmation := false
    isSaving := false }

/-! ## Claim theorems -/

/-- C7: the pure field validator's concrete outcomes: `amount="abc"` gives
the positive-number error; `"99.50"` neither error nor warning; `"250000"`
only the large-amount warning; `sender="A"` the name-length error;
`transaction_id="123"` the id-length error and `"1234"` no error; and
`date`, `time`, `category` are valid for every value. -/
theorem validator_concrete_cases :
    (validateField Field.amount "abc" =
      ⟨some "Amount must be a positive number", none⟩)
  ∧ (validateField Field.amount "99.50" = ⟨none, none⟩)
  ∧ (validateField Field.amount "250000" =
      ⟨none, some "Large amount detected - please verify"⟩)
  ∧ (validateField Field.sender "A" =
      ⟨some "Name must be at least 2 characters", none⟩)
  ∧ (validateField Field.transaction_id "123" =
      ⟨some "Transaction ID must be at least 4 characters", none⟩)
  ∧ (validateField Field.transaction_id "1234" = ⟨none, none⟩)
  ∧ ∀ v : String,
      validateField Field.date v = ⟨none, none⟩
    ∧ validateField Field.time v = ⟨none, none⟩
    ∧ validateField Field.category v = ⟨none, none⟩ :=
  ⟨by decide, by decide, by decide, by decide, by decide, by decide,
    fun _ => ⟨rfl, rfl, rfl⟩⟩

/-- C10: the amount validator only parses the leading numeric prefix, so a
string whose prefix parses to a value in `(0, 100000]` is accepted with
neither error nor warning even when non-numeric characters trail it. -/
theorem amount_parses_leading_digits (s : String) (q : ℚ)
    (hp : jsParseFloat s = some q) (h0 : 0 < q) (h1 : q ≤ 100000) :
    validateField Field.amount s = ⟨none, none⟩ := by
  have h2 : ¬ q ≤ 0 := not_le.mpr h0
  have h3 : ¬ q > 100000 := not_lt.mpr h1
  simp [validateField, hp, h2, h3]

/-- Witness for C10 at the concrete input `"12abc"`. -/
theorem amount_parses_leading_digits_witness :
    validateField Field.amount "12abc" = ⟨none, none⟩ :=
  amount_parses_leading_digits "12abc" 12 (by decide) (by decide) (by decide)

/-- C8: `editField` is idempotent: applying the same `(field, value)`
twice yields the same working copy and the same validation and warning
maps as applying it once. -/
theorem editField_idempotent (st : ModalState) (f : Field) (v : String) :
    handleFieldEdit (handleFieldEdit st f v) f v = handleFieldEdit st f v := by
  unfold handleFieldEdit
  simp only
  congr 1
  · exact WorkingCopy.set_set st.editedData f v
  · funext g
    by_cases h : g = f <;> simp [h]
  · funext g
    by_cases h : g = f <;> simp [h]

/-- C2: `confirm()` recomputes validation from the working copy alone for
every field of the record except `confidence`, and replaces both maps
wholesale: the resulting maps and the persistence decision are the same
whatever stale partial results were in the state. -/
theorem confirm_replaces_validation_wholesale (st : ModalState)
    (e w : Field → Option String) :
    ((handleConfirm st).newState.validationErrors =
        fun f => (validateField f (st.editedData.get f)).error)
  ∧ ((handleConfirm st).newState.warnings =
        fun f => (validateField f (st.editedData.get f)).warning)
  ∧ ((handleConfirm { st with validationErrors := e, warnings := w }).newState.validationErrors
      = (handleConfirm st).newState.validationErrors)
  ∧ ((handleConfirm { st with validationErrors := e, warnings := w }).newState.warnings
      = (handleConfirm st).newState.warnings)
  ∧ ((handleConfirm { st with validationErrors := e, warnings := w }).persisted
      = (handleConfirm st).persisted) :=
  ⟨rfl, rfl, rfl, rfl, rfl⟩

/-- C4: `confirm()` invokes the persistence collaborator iff the error
set of the full revalidation is empty, and a working copy with
`amount="-5"` always gets `errors.amount` set and never reaches
persistence. -/
theorem confirm_persist_iff_no_errors (st : ModalState) :
    ((handleConfirm st).persisted ≠ none ↔
        ∀ f : Field, (validateField f (st.editedData.get f)).error = none)
  ∧ (st.editedData.amount = "-5" →
      (handleConfirm st).newState.validationErrors Field.amount =
          some "Amount must be a positive number"
        ∧ (handleConfirm st).persisted = none) := by
  constructor
  · rw [← noConfirmErrors_iff]
    unfold handleConfirm
    by_cases h : noConfirmErrors st.editedData <;> simp [h]
  · intro h5
    have hget : st.editedData.get Field.amount = "-5" := h5
    have hv : (validateField Field.amount (st.editedData.get Field.amount)).error
        = some "Amount must be a positive number" := by
      rw [hget]; decide
    refine ⟨?_, ?_⟩
    · simpa [handleConfirm, confirmAllErrors] using hv
    · have hne : noConfirmErrors st.editedData = false := by
        rw [Bool.eq_false_iff, Ne, noConfirmErrors_iff]
        intro hall
        have := hall Field.amount
        rw [hv] at this
        exact Option.some_ne_none _ this
      simp [handleConfirm, hne]

/-- Witness for C4: the sample review with `amount="-5"` is blocked. -/
theorem confirm_persist_iff_no_errors_witness :
    (handleConfirm badAmountState).persisted = none :=
  ((confirm_persist_iff_no_errors badAmountState).2 rfl).2

/-- C5: confirm-blocking depends only on the revalidation at confirm
time: after an invalid edit of field `A`, a valid edit of field `B` and a
valid re-edit of `A`, a confirm on a working copy that fully revalidates
cleanly hands exactly that working copy to persistence, stale per-field
results notwithstanding. -/
theorem confirm_ignores_stale_edits (st : ModalState) (A B : Field)
    (vA vB vA2 : String)
    (_hbad : (validateField A vA).error.isSome = true)
    (_hgoodB : (validateField B vB).error = none)
    (_hgoodA : (validateField A vA2).error = none)
    (hall : noConfirmErrors (((st.editedData.set A vA).set B vB).set A vA2) = true) :
    (handleConfirm
        (handleFieldEdit (handleFieldEdit (handleFieldEdit st A vA) B vB) A vA2)).persisted
      = some (((st.editedData.set A vA).set B vB).set A vA2) := by
  simp [handleConfirm, handleFieldEdit, hall]

/-- Witness for C5: amount made invalid, sender edited, amount fixed,
then the confirm persists the final working copy. -/
theorem confirm_ignores_stale_edits_witness :
    (handleConfirm
        (handleFieldEdit
          (handleFieldEdit
            (handleFieldEdit (resetModal sampleCopy) Field.amount "-5")
            Field.sender "Alice")
          Field.amount "150")).persisted
      = some (((sampleCopy.set Field.amount "-5").set Field.sender "Alice").set
          Field.amount "150") :=
  confirm_ignores_stale_edits (resetModal sampleCopy) Field.amount Field.sender
    "-5" "Alice" "150" (by decide) (by decide) (by decide) (by decide)

/-- C6 counterexample: a working copy with `amount="150000"` but a
one-character sender is not persisted by `confirm()`, refuting the claim
for arbitrary working copies with that amount. -/
theorem large_amount_counterexample :
    largeAmountShortSender.editedData.amount = "150000"
  ∧ (handleConfirm largeAmountShortSender).persisted = none := by
  constructor
  · rfl
  · decide

/-- C6 amended: for a working copy with `amount="150000"` whose other
fields pass validation, `confirm()` sets `warnings.amount`, leaves
`errors.amount` unset, and hands the working copy to persistence —
warnings never block. -/
theorem large_amount_warns_and_persists (st : ModalState)
    (hAmt : st.editedData.amount = "150000")
    (hOthers : ∀ f : Field, f ≠ Field.amount →
        (validateField f (st.editedData.get f)).error = none) :
    (handleConfirm st).newState.warnings Field.amount =
        some "Large amount detected - please verify"
  ∧ (handleConfirm st).newState.validationErrors Field.amount = none
  ∧ (handleConfirm st).persisted = some st.editedData := by
  have hget : st.editedData.get Field.amount = "150000" := hAmt
  have hv : validateField Field.amount "150000" =
      ⟨none, some "Large amount detected - please verify"⟩ := by decide
  refine ⟨?_, ?_, ?_⟩
  · simp [handleConfirm, confirmAllWarnings, hget, hv]
  · simp [handleConfirm, confirmAllErrors, hget, hv]
  · have hall : noConfirmErrors st.editedData = true := by
      rw [noConfirmErrors_iff]
      intro f
      by_cases hf : f = Field.amount
      · subst hf
        rw [hget, hv]
      · exact hOthers f hf
    simp [handleConfirm, hall]

/-- Witness for the amended C6: the sample copy with `amount="150000"`
is persisted. -/
theorem large_amount_warns_and_persists_witness :
    (handleConfirm largeAmountState).persisted = some largeAmountState.editedData :=
  (large_amount_warns_and_persists largeAmountState rfl
    (by
      intro f hf
      cases f
      · exact absurd rfl hf
      all_goals decide)).2.2

/-- C3: the upload response is classified in fixed priority order —
password-required first (even when success-like fields are present), then
the structured-extraction shape, then a generic success flag or check-mark
status text, otherwise error. -/
theorem upload_response_priority (st : UploadState) (r : UploadResponse) :
    (r.requires_password = true →
        (applyUploadResponse st r).requiresPassword = true
      ∧ (applyUploadResponse st r).status = UploadStatus.idle
      ∧ (applyUploadResponse st r).showConfirmation = st.showConfirmation)
  ∧ (r.requires_password = false →
      ∀ d, r.extracted_data = some d → r.success = true →
        (applyUploadResponse st r).showConfirmation = true
      ∧ (applyUploadResponse st r).extractedData = some d)
  ∧ (r.requires_password = false →
      (r.extracted_data = none ∨ r.success = false) →
      (r.success = true ∨ statusHasCheckMark r.status = true) →
        (applyUploadResponse st r).status = UploadStatus.success)
  ∧ (r.requires_password = false → r.success = false →
      statusHasCheckMark r.status = false →
        (applyUploadResponse st r).status = UploadStatus.failed) := by
  refine ⟨?_, ?_, ?_, ?_⟩
  · intro hpw
    simp [applyUploadResponse, hpw]
  · intro hpw d hd hs
    simp [applyUploadResponse, hpw, hd, hs]
  · intro hpw hshape hsucc
    rcases hshape with hnone | hfail
    · rcases hsucc with hs | hc
      · simp [applyUploadResponse, applyUploadFallback, hpw, hnone, hs]
      · simp [applyUploadResponse, applyUploadFallback, hpw, hnone, hc]
    · rw [hfail] at hsucc
      cases hsucc with
      | inl h => exact absurd h (by simp)
      | inr hc =>
        cases hd : r.extracted_data <;>
          simp [applyUploadResponse, applyUploadFallback, hpw, hfail, hd, hc]
  · intro hpw hfail hc
    cases hd : r.extracted_data <;>
      simp [applyUploadResponse, applyUploadFallback, hpw, hfail, hd, hc]

/-- Witness for C3: a response carrying `requires_password`, a success
flag, extracted data and a check-marked status still lands in
awaiting-password. -/
theorem upload_response_priority_witness :
    (applyUploadResponse initialUploadState
        { requires_password := true, success := true,
          extracted_data := some sampleCopy, status := some "✅ done" }).requiresPassword
      = true :=
  ((upload_response_priority initialUploadState
      { requires_password := true, success := true,
        extracted_data := some sampleCopy, status := some "✅ done" }).1 rfl).1

/-- C9: when the persistence call behind `confirm()` fails, the modal
stays open with its state untouched, the extraction (hence the working
copy) is preserved, the server's `detail` is surfaced in the banner, and
the modal closes only when persistence succeeds. -/
theorem persistence_failure_keeps_reviewing (st : AppState) (r : HttpResponse)
    (detail : String) (hopen : st.upload.showConfirmation = true)
    (h401 : r.status ≠ 401) (hok : r.ok = false) (hd : detail ≠ "") :
    ((appConfirmSave st (confirmTransactionApi r (some detail))).upload.showConfirmation = true)
  ∧ ((appConfirmSave st (confirmTransactionApi r (some detail))).modal = st.modal)
  ∧ ((appConfirmSave st (confirmTransactionApi r (some detail))).upload.extractedData
      = st.upload.extractedData)
  ∧ ((appConfirmSave st (confirmTransactionApi r (some detail))).upload.message
      = "❌ Failed to save: " ++ detail)
  ∧ (∀ res : Except String Unit,
      (appConfirmSave st res).upload.showConfirmation = false →
        res = Except.ok ()) := by
  have hres : confirmTransactionApi r (some detail) = Except.error detail := by
    simp [confirmTransactionApi, h401, hok, jsStringOr, hd]
  rw [hres]
  refine ⟨?_, ?_, ?_, ?_, ?_⟩
  · simpa [appConfirmSave, handleConfirmTransaction] using hopen
  · simp [appConfirmSave, handleConfirmTransaction]
  · simp [appConfirmSave, handleConfirmTransaction]
  · simp [appConfirmSave, handleConfirmTransaction, jsStringOr, hd]
  · intro res hclosed
    cases res with
    | ok u => rfl
    | error m =>
      rw [show (appConfirmSave st (Except.error m)).upload.showConfirmation
            = st.upload.showConfirmation by
          simp [appConfirmSave, handleConfirmTransaction]] at hclosed
      rw [hopen] at hclosed
      exact absurd hclosed (by simp)

/-- A combined state in review: modal open over the sample extraction. -/
def reviewingAppState : AppState :=
  { upload :=
      { initialUploadState with
        extractedData := some sampleCopy
        showConfirmation := true }
    modal := resetModal sampleCopy }

/-- Witness for C9: a 500 with `detail="duplicate transaction"` keeps the
modal open and surfaces the detail. -/
theorem persistence_failure_keeps_reviewing_witness :
    ((appConfirmSave reviewingAppState
        (confirmTransactionApi ⟨500⟩ (some "duplicate transaction"))).upload.showConfirmation
      = true)
  ∧ ((appConfirmSave reviewingAppState
        (confirmTransactionApi ⟨500⟩ (some "duplicate transaction"))).upload.message
      = "❌ Failed to save: duplicate transaction") :=
  ⟨(persistence_failure_keeps_reviewing reviewingAppState ⟨500⟩
      "duplicate transaction" rfl (by decide) (by decide) (by decide)).1,
    (persistence_failure_keeps_reviewing reviewingAppState ⟨500⟩
      "duplicate transaction" rfl (by decide) (by decide) (by decide)).2.2.2.1⟩

/-- C1 counterexample: a 401 on the delete call neither clears the stored
credential nor signals re-authentication — the handler only alerts. -/
theorem delete_401_keeps_credential :
    (opAuthReaction RemoteOp.deleteExpense ⟨401⟩).clearedToken = false
  ∧ (opAuthReaction RemoteOp.deleteExpense ⟨401⟩).navigatedToLogin = false
  ∧ (opAuthReaction RemoteOp.deleteExpense ⟨401⟩).alerted = some "Failed to delete" := by
  decide

/-- C1 amended: no operation ever retries after a 401, but only the
upload and list-fetch handlers clear the stored credential and navigate
to re-authentication; the confirm-save and delete handlers leave the
credential in place and merely surface an error. -/
theorem auth_401_handling (op : RemoteOp) (r : HttpResponse)
    (h : r.status = 401) :
    ((opAuthReaction op r).retriedRequest = false)
  ∧ ((op = RemoteOp.upload ∨ op = RemoteOp.listFetch) →
      (opAuthReaction op r).clearedToken = true
      ∧ (opAuthReaction op r).navigatedToLogin = true)
  ∧ ((op = RemoteOp.confirmSave ∨ op = RemoteOp.deleteExpense) →
      (opAuthReaction op r).clearedToken = false
      ∧ (opAuthReaction op r).navigatedToLogin = false) := by
  cases op <;>
    simp [opAuthReaction, uploadAuthReaction, confirmSaveAuthReaction,
      deleteAuthReaction, listFetchAuthReaction, h]

/-- Witness for the amended C1 at the upload operation. -/
theorem auth_401_handling_witness :
    (opAuthReaction RemoteOp.upload ⟨401⟩).clearedToken = true :=
  ((auth_401_handling RemoteOp.upload ⟨401⟩ rfl).2.1 (Or.inl rfl)).1

end ExpenseApp
